import Mathlib

/-!
Verification of the asitop ingestion pipeline (shallow embedding).

The definitions below are translated from `asitop/parsers.py`,
`asitop/utils.py` and `asitop/asitop.py`.  Raw powermetrics plist
documents are modelled as typed records with `Option` fields for the
dictionary keys that the Python code reads defensively (`dict.get`),
while plain `dict[...]` subscripting (which raises `KeyError`) is
modelled in the `Option` monad.  Python floats are modelled as `ℚ`;
Python `int()` truncation and `round()` (banker's rounding) are given
explicit definitions `pyTrunc` and `pyRound`.
-/

namespace Asitop

/-- Python `int(x)` on a float: truncation toward zero. -/
def pyTrunc (x : ℚ) : ℤ := if 0 ≤ x then ⌊x⌋ else ⌈x⌉

/-- Python `round(x)` with one argument: round half to even (banker's rounding). -/
def pyRound (x : ℚ) : ℤ :=
  if x - ⌊x⌋ < 1/2 then ⌊x⌋
  else if (1:ℚ)/2 < x - ⌊x⌋ then ⌊x⌋ + 1
  else if ⌊x⌋ % 2 = 0 then ⌊x⌋ else ⌊x⌋ + 1

/-- One entry of a cluster's `cpus` list in the raw powermetrics document. -/
structure CpuCore where
  cpu : ℕ
  freq_hz : ℚ
  idle_ratio : ℚ

/-- One entry of `processor.clusters` in the raw powermetrics document. -/
structure Cluster where
  name : String
  freq_hz : ℚ
  idle_ratio : ℚ
  cpus : List CpuCore

/-- The `processor` sub-document.  `gpu_energy` is read with `.get` in the
source, hence `Option`; the other energy fields are read with `[...]`, but a
missing `processor` key is already detected at the top level, so they are
plain fields here. -/
structure Processor where
  clusters : List Cluster
  ane_energy : ℚ
  cpu_energy : ℚ
  gpu_energy : Option ℚ
  combined_power : ℚ

/-- One entry of the GPU `dvfm_states` residency table; both keys are read
with `.get(..., 0)` in the source. -/
structure DvfmState where
  freq : Option ℚ
  used_ratio : Option ℚ

/-- The `gpu` sub-document.  All four keys are read defensively in the
source (`.get`), hence `Option` fields. -/
structure GpuDoc where
  freq_hz : Option ℚ
  idle_ratio : Option ℚ
  dvfm_states : Option (List DvfmState)
  gpu_energy : Option ℚ

/-- A decoded powermetrics plist document.  Top-level keys are `Option`:
`parse_powermetrics` treats a `KeyError` on any of them as a decode
failure for the fragment. -/
structure RawRecord where
  timestamp : Option ℤ
  thermal_pressure : Option String
  processor : Option Processor
  gpu : Option GpuDoc

/-- Result of `parse_gpu_metrics` (parsers.py lines 271-274). -/
structure GpuMetrics where
  freq_MHz : ℤ
  active : ℤ

/-- Result of `parse_cpu_metrics`.  The string-keyed integer entries
(`<name>_freq_Mhz`, `<name>_active`, per-core variants and the canonical
`E-Cluster`/`P-Cluster` keys) are kept as an insertion-ordered association
list exactly as the Python dict stores them; the non-integer values that
the Python code stores in the same dict (`e_core`, `p_core` and the four
wattages) are separate fields, their keys never collide with the string
keys of the integer entries. -/
structure CpuMetrics where
  entries : List (String × ℤ)
  e_core : List ℕ
  p_core : List ℕ
  ane_W : ℚ
  cpu_W : ℚ
  gpu_W : ℚ
  package_W : ℚ

/-- Python dict membership test `k in d` for the association list. -/
def dmem (d : List (String × ℤ)) (k : String) : Bool :=
  d.any (fun p => p.1 = k)

/-- Python dict read `d[k]`: `none` models a `KeyError`. -/
def dget (d : List (String × ℤ)) (k : String) : Option ℤ :=
  (d.find? (fun p => p.1 = k)).map Prod.snd

/-- Python dict write `d[k] = v`: overwrite in place, else append. -/
def dinsert (d : List (String × ℤ)) (k : String) (v : ℤ) : List (String × ℤ) :=
  if dmem d k then d.map (fun p => if p.1 = k then (k, v) else p)
  else d ++ [(k, v)]

/-- Inner loop of `parse_cpu_metrics` over `cluster["cpus"]`
(parsers.py lines 165-170).  `cname` is the rebound loop variable `name`
(`"E-Cluster"` or `"P-Cluster"`), `isE` the role test `name[0] == "E"`. -/
def cpusFold (cname : String) (isE : Bool) :
    List (String × ℤ) × List ℕ × List ℕ → List CpuCore →
    List (String × ℤ) × List ℕ × List ℕ
  | acc, [] => acc
  | (d, e, p), c :: rest =>
      let e' := if isE then e ++ [c.cpu] else e
      let p' := if isE then p else p ++ [c.cpu]
      let d' := dinsert d (cname ++ toString c.cpu ++ "_freq_Mhz") (pyTrunc (c.freq_hz / 1000000))
      let d'' := dinsert d' (cname ++ toString c.cpu ++ "_active") (pyRound ((1 - c.idle_ratio) * 100))
      cpusFold cname isE (d'', e', p') rest

/-- Outer loop of `parse_cpu_metrics` over `cpu_metrics["clusters"]`
(parsers.py lines 160-170).  A cluster with a nonempty `cpus` list and an
empty `name` raises `IndexError` at `name[0]` in the source, which the
reader treats as a decode failure: modelled as `none`. -/
def clustersFold :
    List (String × ℤ) × List ℕ × List ℕ → List Cluster →
    Option (List (String × ℤ) × List ℕ × List ℕ)
  | acc, [] => some acc
  | (d, e, p), cl :: rest =>
      let d₁ := dinsert d (cl.name ++ "_freq_Mhz") (pyTrunc (cl.freq_hz / 1000000))
      let d₂ := dinsert d₁ (cl.name ++ "_active") (pyRound ((1 - cl.idle_ratio) * 100))
      match cl.cpus with
      | [] => clustersFold (d₂, e, p) rest
      | _ :: _ =>
          match cl.name.data.head? with
          | none => none
          | some c0 =>
              let isE := c0 = 'E'
              let cname := if isE then "E-Cluster" else "P-Cluster"
              clustersFold (cpusFold cname isE (d₂, e, p) cl.cpus) rest

/-- Dual E-cluster merge for `E-Cluster_active` (parsers.py lines 174-177). -/
def mergeEActive (d : List (String × ℤ)) : Option (List (String × ℤ)) :=
  if ¬ dmem d "E-Cluster_active" ∧ dmem d "E0-Cluster_active" then do
    let a0 ← dget d "E0-Cluster_active"
    let a1 ← dget d "E1-Cluster_active"
    some (dinsert d "E-Cluster_active" (pyTrunc (((a0 : ℚ) + (a1 : ℚ)) / 2)))
  else some d

/-- Dual E-cluster merge for `E-Cluster_freq_Mhz` (parsers.py lines 178-181). -/
def mergeEFreq (d : List (String × ℤ)) : Option (List (String × ℤ)) :=
  if ¬ dmem d "E-Cluster_freq_Mhz" ∧ dmem d "E0-Cluster_freq_Mhz" then do
    let f0 ← dget d "E0-Cluster_freq_Mhz"
    let f1 ← dget d "E1-Cluster_freq_Mhz"
    some (dinsert d "E-Cluster_freq_Mhz" (max f0 f1))
  else some d

/-- Multi P-cluster merge for `P-Cluster_active` (parsers.py lines 183-199). -/
def mergePActive (d : List (String × ℤ)) : Option (List (String × ℤ)) :=
  if ¬ dmem d "P-Cluster_active" then
    if dmem d "P2-Cluster_active" then do
      let a0 ← dget d "P0-Cluster_active"
      let a1 ← dget d "P1-Cluster_active"
      let a2 ← dget d "P2-Cluster_active"
      let a3 ← dget d "P3-Cluster_active"
      some (dinsert d "P-Cluster_active"
        (pyTrunc (((a0 : ℚ) + (a1 : ℚ) + (a2 : ℚ) + (a3 : ℚ)) / 4)))
    else if dmem d "P0-Cluster_active" then do
      let a0 ← dget d "P0-Cluster_active"
      let a1 ← dget d "P1-Cluster_active"
      some (dinsert d "P-Cluster_active" (pyTrunc (((a0 : ℚ) + (a1 : ℚ)) / 2)))
    else some d
  else some d

/-- Multi P-cluster merge for `P-Cluster_freq_Mhz` (parsers.py lines 200-214). -/
def mergePFreq (d : List (String × ℤ)) : Option (List (String × ℤ)) :=
  if ¬ dmem d "P-Cluster_freq_Mhz" then
    if dmem d "P2-Cluster_freq_Mhz" then do
      let f0 ← dget d "P0-Cluster_freq_Mhz"
      let f1 ← dget d "P1-Cluster_freq_Mhz"
      let f2 ← dget d "P2-Cluster_freq_Mhz"
      let f3 ← dget d "P3-Cluster_freq_Mhz"
      some (dinsert d "P-Cluster_freq_Mhz" (max (max (max f0 f1) f2) f3))
    else if dmem d "P0-Cluster_freq_Mhz" then do
      let f0 ← dget d "P0-Cluster_freq_Mhz"
      let f1 ← dget d "P1-Cluster_freq_Mhz"
      some (dinsert d "P-Cluster_freq_Mhz" (max f0 f1))
    else some d
  else some d

/-- GPU rail energy selection (parsers.py lines 223-226): prefer the GPU
sampler's reading when present and nonzero, else the processor sampler's
reading, else `0` (the trailing `or 0` also maps a zero/absent fallback
to `0`, which coincides with `Option.getD 0`). -/
def selectGpuEnergy (gpuSide : Option ℚ) (procSide : Option ℚ) : ℚ :=
  match gpuSide with
  | some e => if e ≠ 0 then e else procSide.getD 0
  | none => procSide.getD 0

/-- `parse_cpu_metrics` (parsers.py lines 144-231). -/
def parse_cpu_metrics (r : RawRecord) : Option CpuMetrics := do
  let proc ← r.processor
  let (d₀, eCore, pCore) ← clustersFold ([], [], []) proc.clusters
  let d₁ ← mergeEActive d₀
  let d₂ ← mergeEFreq d₁
  let d₃ ← mergePActive d₂
  let d₄ ← mergePFreq d₃
  some { entries := d₄
         e_core := eCore
         p_core := pCore
         ane_W := proc.ane_energy / 1000
         cpu_W := proc.cpu_energy / 1000
         gpu_W := selectGpuEnergy (r.gpu.bind GpuDoc.gpu_energy) proc.gpu_energy / 1000
         package_W := proc.combined_power / 1000 }

/-- `parse_gpu_metrics` (parsers.py lines 234-275). -/
def parse_gpu_metrics (r : RawRecord) : Option GpuMetrics := do
  let g ← r.gpu
  let rawFreq : ℚ := g.freq_hz.getD 0
  let freq₀ : ℤ := if rawFreq > 100000 then pyTrunc (rawFreq / 1000000) else pyTrunc rawFreq
  let freq : ℤ :=
    match g.dvfm_states with
    | none => freq₀
    | some states =>
        if freq₀ = 0 then
          let weighted := (states.map (fun s => s.freq.getD 0 * s.used_ratio.getD 0)).sum
          let total := (states.map (fun s => s.used_ratio.getD 0)).sum
          if total > 0 then pyTrunc (weighted / total) else freq₀
        else freq₀
  let act₀ : ℤ := pyTrunc ((1 - g.idle_ratio.getD 0) * 100)
  some { freq_MHz := freq, active := max 0 (min act₀ 100) }

/-- `parse_thermal_pressure` (parsers.py lines 4-14). -/
def parse_thermal_pressure (r : RawRecord) : Option String :=
  r.thermal_pressure

/-- The tuple returned by a successful `parse_powermetrics` call
(utils.py lines 164-170); the constant `bandwidth_metrics = None` slot is
omitted. -/
structure Snapshot where
  cpu : CpuMetrics
  gpu : GpuMetrics
  thermal_pressure : String
  timestamp : ℤ

/-- Body of the `try` block in `parse_powermetrics` (utils.py lines
157-170) after a successful `plistlib.loads`: any `KeyError` raised by
the field parsers or by the `timestamp` lookup is caught by the `except`
clause, modelled as `none`. -/
def parseRecord (r : RawRecord) : Option Snapshot := do
  let tp ← parse_thermal_pressure r
  let cpu ← parse_cpu_metrics r
  let gpu ← parse_gpu_metrics r
  let ts ← r.timestamp
  some { cpu := cpu, gpu := gpu, thermal_pressure := tp, timestamp := ts }

/-- Processing of one candidate fragment (utils.py lines 156-173): empty
fragments are skipped, `plistlib.loads` (the external decoder, passed as
the parameter `decode`) may fail, and a decoded document must survive
`parseRecord`. -/
def fragmentParse (decode : List ℕ → Option RawRecord) (frag : List ℕ) : Option Snapshot :=
  if frag.length > 0 then (decode frag).bind parseRecord else none

/-- The index-descending retry loop `for i in range(len(data_parts) - 1, -1, -1)`
(utils.py lines 155-173): `tryFrom decode parts n` tries indices
`n-1, n-2, ..., 0`. -/
def tryFrom (decode : List ℕ → Option RawRecord) (parts : List (List ℕ)) : ℕ → Option Snapshot
  | 0 => none
  | i + 1 =>
      match parts[i]? with
      | none => tryFrom decode parts i
      | some frag =>
          match fragmentParse decode frag with
          | some s => some s
          | none => tryFrom decode parts i

/-- The trailing window read (utils.py lines 142-149): seek to end, read
the last `min(50000, file_size)` bytes. -/
def window (file : List ℕ) : List ℕ :=
  file.drop (file.length - min 50000 file.length)

/-- `parse_powermetrics` (utils.py lines 125-177) over the file's byte
contents: `none` contents model a missing/unreadable file (`OSError`),
and the result `none` models the `False` (NotReady) return.  The null
split is `data.split(b"\x00")` on the trailing window. -/
def parse_powermetrics (contents : Option (List ℕ))
    (decode : List ℕ → Option RawRecord) : Option Snapshot :=
  match contents with
  | none => none
  | some file =>
      let parts := (window file).splitOn 0
      tryFrom decode parts parts.length

/-- Thermal throttle display flag (asitop.py lines 227-230). -/
def thermal_throttle (tp : String) : String :=
  if tp = "Nominal" then "no" else "yes"

/-- Rolling state for one power rail of the ingestion loop
(asitop.py lines 168-196): last accepted timestamp, the bounded
`deque` of recent wattages, and the running peak. -/
structure LoopState where
  last_timestamp : ℤ
  buf : List ℚ
  peak : ℚ

/-- `deque.append` on a deque with `maxlen`: the oldest elements are
evicted from the left so that at most `maxlen` remain. -/
def dequeAppend (maxlen : ℕ) (buf : List ℚ) (x : ℚ) : List ℚ :=
  let b := buf ++ [x]
  b.drop (b.length - maxlen)

/-- The state update performed for an accepted snapshot
(asitop.py lines 224-225 and 402-404): record the timestamp, update the
peak via `max`, append the wattage to the rolling deque. -/
def acceptStep (maxlen : ℕ) (s : LoopState) (o : ℤ × ℚ) : LoopState :=
  { last_timestamp := o.1, buf := dequeAppend maxlen s.buf o.2, peak := max s.peak o.2 }

/-- One polled snapshot observed by the loop: accepted only when its
timestamp is strictly greater than the last accepted one
(`if timestamp > last_timestamp`, asitop.py line 224), otherwise a no-op. -/
def observeStep (maxlen : ℕ) (s : LoopState) (o : ℤ × ℚ) : LoopState :=
  if s.last_timestamp < o.1 then acceptStep maxlen s o else s

/-- The ingestion loop over a sequence of polled (timestamp, wattage)
snapshots for one rail. -/
def runLoop (maxlen : ℕ) (s : LoopState) (obs : List (ℤ × ℚ)) : LoopState :=
  obs.foldl (observeStep maxlen) s

/-- The subsequence of observations the loop accepts (timestamp strictly
above the last accepted one), i.e. the observations delivered downstream. -/
def accepted : ℤ → List (ℤ × ℚ) → List (ℤ × ℚ)
  | _, [] => []
  | last, o :: rest => if last < o.1 then o :: accepted o.1 rest else accepted last rest

/-- `get_avg` (asitop.py lines 190-192): `sum(inlist)/len(inlist)`;
an empty list raises `ZeroDivisionError`, modelled as `none`. -/
def get_avg (l : List ℚ) : Option ℚ :=
  if l = [] then none else some (l.sum / (l.length : ℚ))

/-- Rolling deque capacity `int(args.avg / args.interval)`
(asitop.py lines 194-196). -/
def bufferCapacity (avg interval : ℕ) : ℕ :=
  avg / interval

/-- Keys of the metric dict that hold an active-percent value: those the
source builds as `f"{name}_active"`. -/
def isActiveKey (k : String) : Prop :=
  ∃ n : String, k = n ++ "_active"

/-- End-to-end scenario record from the spec (section 8): one E-cluster at
2064 MHz with idle ratio 0.8, energies 1000/5000/3000/9000, GPU at
1296 MHz with idle ratio 0.25, thermal pressure Nominal. -/
def recScenario : RawRecord :=
  { timestamp := some 1234567890
    thermal_pressure := some "Nominal"
    processor := some
      { clusters := [{ name := "E-Cluster", freq_hz := 2064000000, idle_ratio := 8/10, cpus := [] }]
        ane_energy := 1000
        cpu_energy := 5000
        gpu_energy := some 3000
        combined_power := 9000 }
    gpu := some { freq_hz := some 1296000000, idle_ratio := some (1/4), dvfm_states := none, gpu_energy := none } }

/-- Parametric record with two efficiency clusters and two performance
clusters (the split-die topology of parsers.py lines 173-214). -/
def recMultiCluster (r0 r1 s0 s1 f0 f1 g0 g1 : ℚ) : RawRecord :=
  { timestamp := some 1
    thermal_pressure := some "Nominal"
    processor := some
      { clusters :=
          [{ name := "E0-Cluster", freq_hz := f0, idle_ratio := r0, cpus := [] },
           { name := "E1-Cluster", freq_hz := f1, idle_ratio := r1, cpus := [] },
           { name := "P0-Cluster", freq_hz := g0, idle_ratio := s0, cpus := [] },
           { name := "P1-Cluster", freq_hz := g1, idle_ratio := s1, cpus := [] }]
        ane_energy := 0
        cpu_energy := 0
        gpu_energy := none
        combined_power := 0 }
    gpu := none }

/-- Record with a single E-cluster whose idle ratio lies outside `[0,1]`. -/
def recUnclamped : RawRecord :=
  { timestamp := some 1
    thermal_pressure := some "Nominal"
    processor := some
      { clusters := [{ name := "E-Cluster", freq_hz := 1000000000, idle_ratio := -(1/2), cpus := [] }]
        ane_energy := 0
        cpu_energy := 0
        gpu_energy := none
        combined_power := 0 }
    gpu := some { freq_hz := some 1000000000, idle_ratio := some 0, dvfm_states := none, gpu_energy := none } }

/-- Record whose GPU frequency is undeterminable: zero direct reading and
no residency table. -/
def recGpuZeroFreq : RawRecord :=
  { timestamp := some 2
    thermal_pressure := some "Nominal"
    processor := none
    gpu := some { freq_hz := some 0, idle_ratio := some (1/2), dvfm_states := none, gpu_energy := none } }

/-- Record whose GPU descriptor lacks the `idle_ratio` field. -/
def recGpuNoIdle : RawRecord :=
  { timestamp := some 3
    thermal_pressure := some "Nominal"
    processor := none
    gpu := some { freq_hz := some 444000000, idle_ratio := none, dvfm_states := none, gpu_energy := none } }

/-- Record with an empty cluster list, a processor-side GPU energy of 1000
and a GPU-side energy of 3000. -/
def recEmptyClusters : RawRecord :=
  { timestamp := some 4
    thermal_pressure := some "Nominal"
    processor := some
      { clusters := []
        ane_energy := 1000
        cpu_energy := 5000
        gpu_energy := some 1000
        combined_power := 9000 }
    gpu := some { freq_hz := none, idle_ratio := none, dvfm_states := none, gpu_energy := some 3000 } }

/-- The metrics `parse_cpu_metrics` produces for `recEmptyClusters`. -/
def cpuEmptyMetrics : CpuMetrics :=
  { entries := []
    e_core := []
    p_core := []
    ane_W := 1
    cpu_W := 5
    gpu_W := 3
    package_W := 9 }

/-- The metrics `parse_cpu_metrics` produces for `recScenario`. -/
def cpuScenarioMetrics : CpuMetrics :=
  { entries := [("E-Cluster_freq_Mhz", 2064), ("E-Cluster_active", 20)]
    e_core := []
    p_core := []
    ane_W := 1
    cpu_W := 5
    gpu_W := 3
    package_W := 9 }

/-- A decoder that rejects every fragment. -/
def decodeNone : List ℕ → Option RawRecord :=
  fun _ => none

/-- A structurally valid document with no `timestamp` field. -/
def recNoTimestamp : RawRecord :=
  { timestamp := none
    thermal_pressure := some "Nominal"
    processor := none
    gpu := none }

/-- A decoder that accepts exactly the fragment `[1]`, yielding a document
that lacks the required `timestamp` field. -/
def decodeNoTimestamp : List ℕ → Option RawRecord :=
  fun frag => if frag = [1] then some recNoTimestamp else none

/-- Every active-percent entry of the metric dict lies in `[0,100]`. -/
def EntriesBounded (d : List (String × ℤ)) : Prop :=
  ∀ k v, (k, v) ∈ d → isActiveKey k → 0 ≤ v ∧ v ≤ 100

/-- All idle ratios appearing in a processor document lie in `[0,1]`. -/
def IdleRatiosOK (proc : Processor) : Prop :=
  ∀ cl ∈ proc.clusters,
    (0 ≤ cl.idle_ratio ∧ cl.idle_ratio ≤ 1) ∧
    ∀ c ∈ cl.cpus, 0 ≤ c.idle_ratio ∧ c.idle_ratio ≤ 1

end Asitop

namespace Asitop

/-- The floor of a rational in `[0,100]` stays in `[0,100]`. -/
theorem floor_bounds {x : ℚ} (h0 : 0 ≤ x) (h1 : x ≤ 100) :
    (0 : ℤ) ≤ ⌊x⌋ ∧ ⌊x⌋ ≤ 100 := by
  refine ⟨Int.le_floor.mpr (by exact_mod_cast h0), ?_⟩
  have : ⌊x⌋ < 101 := Int.floor_lt.mpr (by push_cast; linarith)
  omega

/-- `pyTrunc` maps `[0,100]` into `[0,100]`. -/
theorem pyTrunc_bounds {x : ℚ} (h0 : 0 ≤ x) (h1 : x ≤ 100) :
    0 ≤ pyTrunc x ∧ pyTrunc x ≤ 100 := by
  unfold pyTrunc
  rw [if_pos h0]
  exact floor_bounds h0 h1

/-- `pyRound` maps `[0,100]` into `[0,100]`. -/
theorem pyRound_bounds {x : ℚ} (h0 : 0 ≤ x) (h1 : x ≤ 100) :
    0 ≤ pyRound x ∧ pyRound x ≤ 100 := by
  obtain ⟨hf0, hf100⟩ := floor_bounds h0 h1
  have hfle : (⌊x⌋ : ℚ) ≤ x := Int.floor_le x
  unfold pyRound
  split_ifs with hlt hgt hpar
  · exact ⟨hf0, hf100⟩
  · have h99 : ⌊x⌋ < 100 := by
      have hx : (⌊x⌋ : ℚ) + 1/2 ≤ x := by linarith
      exact_mod_cast show (⌊x⌋ : ℚ) < 100 by linarith
    omega
  · exact ⟨hf0, hf100⟩
  · have h99 : ⌊x⌋ < 100 := by
      have hge : (1 : ℚ)/2 ≤ x - ⌊x⌋ := le_of_not_lt hlt
      exact_mod_cast show (⌊x⌋ : ℚ) < 100 by linarith
    omega

/-- Membership after a Python-style dict write: the entry is the new pair
or was already present. -/
theorem mem_dinsert {d : List (String × ℤ)} {k k' : String} {v v' : ℤ}
    (h : (k', v') ∈ dinsert d k v) : (k' = k ∧ v' = v) ∨ (k', v') ∈ d := by
  unfold dinsert at h
  split at h
  · obtain ⟨p, hp, he⟩ := List.mem_map.mp h
    by_cases hk : p.1 = k
    · rw [if_pos hk] at he
      left
      exact ⟨(congrArg Prod.fst he).symm, (congrArg Prod.snd he).symm⟩
    · rw [if_neg hk] at he
      right
      exact he ▸ hp
  · rcases List.mem_append.mp h with hm | hm
    · right; exact hm
    · left
      have hkv := List.mem_singleton.mp hm
      exact ⟨congrArg Prod.fst hkv, congrArg Prod.snd hkv⟩

/-- A successful dict read returns an entry of the dict. -/
theorem dget_mem {d : List (String × ℤ)} {k : String} {v : ℤ}
    (h : dget d k = some v) : (k, v) ∈ d := by
  unfold dget at h
  obtain ⟨p, hp, he⟩ := Option.map_eq_some'.mp h
  have hpd := List.mem_of_find?_eq_some hp
  have hkey : p.1 = k := by
    have := List.find?_some hp
    simpa using this
  have : p = (k, v) := by
    cases p
    simp only [Prod.mk.injEq]
    exact ⟨hkey, he⟩
  exact this ▸ hpd

/-- A key built with the `_active` suffix never coincides with a key built
with the `_freq_Mhz` suffix. -/
theorem active_ne_freq (n m : String) : n ++ "_active" ≠ m ++ "_freq_Mhz" := by
  intro h
  have hd := congrArg String.data h
  rw [String.data_append, String.data_append] at hd
  have h1 : (n.data ++ ("_active" : String).data).getLast? = some 'e' := by
    rw [List.getLast?_append]; rfl
  have h2 : (m.data ++ ("_freq_Mhz" : String).data).getLast? = some 'z' := by
    rw [List.getLast?_append]; rfl
  rw [hd, h2] at h1
  simp at h1

/-- The empty dict is bounded. -/
theorem entriesBounded_nil : EntriesBounded [] := by
  intro k v h
  simp at h

/-- Writing an in-range value under an `_active` key preserves boundedness. -/
theorem entriesBounded_dinsert_active {d : List (String × ℤ)} (hd : EntriesBounded d)
    (n : String) {v : ℤ} (h0 : 0 ≤ v) (h1 : v ≤ 100) :
    EntriesBounded (dinsert d (n ++ "_active") v) := by
  intro k w hm hk
  rcases mem_dinsert hm with ⟨_, hveq⟩ | hm'
  · exact hveq ▸ ⟨h0, h1⟩
  · exact hd k w hm' hk

/-- Writing any value under a `_freq_Mhz` key preserves boundedness. -/
theorem entriesBounded_dinsert_freq {d : List (String × ℤ)} (hd : EntriesBounded d)
    (n : String) (v : ℤ) : EntriesBounded (dinsert d (n ++ "_freq_Mhz") v) := by
  intro k w hm hk
  rcases mem_dinsert hm with ⟨hkeq, _⟩ | hm'
  · obtain ⟨m, hmk⟩ := hk
    exact absurd (hmk.symm.trans hkeq) (active_ne_freq m n)
  · exact hd k w hm' hk

/-- A successful read of an `_active` key from a bounded dict is in range. -/
theorem dget_active_bounds {d : List (String × ℤ)} (hd : EntriesBounded d)
    (n : String) {v : ℤ} (h : dget d (n ++ "_active") = some v) :
    0 ≤ v ∧ v ≤ 100 :=
  hd _ v (dget_mem h) ⟨n, rfl⟩

/-- The per-core loop preserves boundedness of the dict when the cores'
idle ratios lie in `[0,1]`. -/
theorem cpusFold_bounded (cname : String) (isE : Bool) (cores : List CpuCore) :
    ∀ (d : List (String × ℤ)) (e p : List ℕ),
      (∀ c ∈ cores, 0 ≤ c.idle_ratio ∧ c.idle_ratio ≤ 1) →
      EntriesBounded d →
      EntriesBounded (cpusFold cname isE (d, e, p) cores).1 := by
  induction cores with
  | nil =>
      intro d e p _ hd
      simpa [cpusFold] using hd
  | cons c rest ih =>
      intro d e p hc hd
      rw [cpusFold]
      apply ih
      · intro c' hc'
        exact hc c' (List.mem_cons_of_mem _ hc')
      · obtain ⟨hρ0, hρ1⟩ := hc c (List.mem_cons_self c rest)
        have hx0 : (0 : ℚ) ≤ (1 - c.idle_ratio) * 100 := by nlinarith
        have hx1 : (1 - c.idle_ratio) * 100 ≤ 100 := by nlinarith
        obtain ⟨hv0, hv1⟩ := pyRound_bounds hx0 hx1
        exact entriesBounded_dinsert_active (entriesBounded_dinsert_freq hd _ _) _ hv0 hv1

/-- The cluster loop preserves boundedness of the dict when every idle
ratio in the cluster list lies in `[0,1]`. -/
theorem clustersFold_bounded (cls : List Cluster) :
    ∀ (d : List (String × ℤ)) (e p : List ℕ)
      (res : List (String × ℤ) × List ℕ × List ℕ),
      (∀ cl ∈ cls, (0 ≤ cl.idle_ratio ∧ cl.idle_ratio ≤ 1) ∧
        ∀ c ∈ cl.cpus, 0 ≤ c.idle_ratio ∧ c.idle_ratio ≤ 1) →
      EntriesBounded d →
      clustersFold (d, e, p) cls = some res →
      EntriesBounded res.1 := by
  induction cls with
  | nil =>
      intro d e p res _ hd h
      rw [clustersFold] at h
      cases h
      exact hd
  | cons cl rest ih =>
      intro d e p res hcls hd h
      have hcl := hcls cl (List.mem_cons_self cl rest)
      have hrest : ∀ cl' ∈ rest, (0 ≤ cl'.idle_ratio ∧ cl'.idle_ratio ≤ 1) ∧
          ∀ c ∈ cl'.cpus, 0 ≤ c.idle_ratio ∧ c.idle_ratio ≤ 1 :=
        fun cl' hcl' => hcls cl' (List.mem_cons_of_mem _ hcl')
      have hx0 : (0 : ℚ) ≤ (1 - cl.idle_ratio) * 100 := by nlinarith [hcl.1.1, hcl.1.2]
      have hx1 : (1 - cl.idle_ratio) * 100 ≤ 100 := by nlinarith [hcl.1.1, hcl.1.2]
      obtain ⟨hv0, hv1⟩ := pyRound_bounds hx0 hx1
      have hd₂ : EntriesBounded
          (dinsert (dinsert d (cl.name ++ "_freq_Mhz") (pyTrunc (cl.freq_hz / 1000000)))
            (cl.name ++ "_active") (pyRound ((1 - cl.idle_ratio) * 100))) :=
        entriesBounded_dinsert_active (entriesBounded_dinsert_freq hd _ _) _ hv0 hv1
      rw [clustersFold] at h
      rcases hcpus : cl.cpus with _ | ⟨c0, cs⟩
      · rw [hcpus] at h
        exact ih _ _ _ _ hrest hd₂ h
      · rw [hcpus] at h
        rcases hhead : cl.name.data.head? with _ | ch
        · rw [hhead] at h
          dsimp only at h
          simp at h
        · rw [hhead] at h
          dsimp only at h
          rcases hfold : cpusFold (if ch = 'E' then "E-Cluster" else "P-Cluster")
              (decide (ch = 'E'))
              (dinsert (dinsert d (cl.name ++ "_freq_Mhz") (pyTrunc (cl.freq_hz / 1000000)))
                (cl.name ++ "_active") (pyRound ((1 - cl.idle_ratio) * 100)), e, p)
              (c0 :: cs) with ⟨d', e', p'⟩
          have hb : EntriesBounded d' := by
            have hball := cpusFold_bounded (if ch = 'E' then "E-Cluster" else "P-Cluster")
              (decide (ch = 'E')) (c0 :: cs) _ e p (hcpus ▸ hcl.2) hd₂
            rw [hfold] at hball
            exact hball
          rw [hfold] at h
          exact ih _ _ _ _ hrest hb h

/-- The dual-E active merge preserves boundedness. -/
theorem mergeEActive_bounded {d d' : List (String × ℤ)} (hd : EntriesBounded d)
    (h : mergeEActive d = some d') : EntriesBounded d' := by
  unfold mergeEActive at h
  split at h
  · rcases ha0 : dget d "E0-Cluster_active" with _ | a0 <;> rw [ha0] at h
    · simp at h
    · simp only [Option.bind_eq_bind, Option.some_bind] at h
      rcases ha1 : dget d "E1-Cluster_active" with _ | a1 <;> rw [ha1] at h
      · simp at h
      · simp only [Option.bind_eq_bind, Option.some_bind] at h
        have hb0 := dget_active_bounds hd "E0-Cluster" ha0
        have hb1 := dget_active_bounds hd "E1-Cluster" ha1
        have hq0 : (0 : ℚ) ≤ ((a0 : ℚ) + (a1 : ℚ)) / 2 := by
          have c0 : (0 : ℚ) ≤ (a0 : ℚ) := by exact_mod_cast hb0.1
          have c1 : (0 : ℚ) ≤ (a1 : ℚ) := by exact_mod_cast hb1.1
          linarith
        have hq1 : ((a0 : ℚ) + (a1 : ℚ)) / 2 ≤ 100 := by
          have c0 : (a0 : ℚ) ≤ 100 := by exact_mod_cast hb0.2
          have c1 : (a1 : ℚ) ≤ 100 := by exact_mod_cast hb1.2
          linarith
        obtain ⟨hv0, hv1⟩ := pyTrunc_bounds hq0 hq1
        cases h
        exact entriesBounded_dinsert_active hd "E-Cluster" hv0 hv1
  · cases h
    exact hd

/-- The dual-E frequency merge preserves boundedness. -/
theorem mergeEFreq_bounded {d d' : List (String × ℤ)} (hd : EntriesBounded d)
    (h : mergeEFreq d = some d') : EntriesBounded d' := by
  unfold mergeEFreq at h
  split at h
  · rcases hf0 : dget d "E0-Cluster_freq_Mhz" with _ | f0 <;> rw [hf0] at h
    · simp at h
    · simp only [Option.bind_eq_bind, Option.some_bind] at h
      rcases hf1 : dget d "E1-Cluster_freq_Mhz" with _ | f1 <;> rw [hf1] at h
      · simp at h
      · simp only [Option.bind_eq_bind, Option.some_bind] at h
        cases h
        exact entriesBounded_dinsert_freq hd "E-Cluster" _
  · cases h
    exact hd

/-- The multi-P active merge preserves boundedness. -/
theorem mergePActive_bounded {d d' : List (String × ℤ)} (hd : EntriesBounded d)
    (h : mergePActive d = some d') : EntriesBounded d' := by
  unfold mergePActive at h
  split at h
  · split at h
    · rcases ha0 : dget d "P0-Cluster_active" with _ | a0 <;> rw [ha0] at h
      · simp at h
      · simp only [Option.bind_eq_bind, Option.some_bind] at h
        rcases ha1 : dget d "P1-Cluster_active" with _ | a1 <;> rw [ha1] at h
        · simp at h
        · simp only [Option.bind_eq_bind, Option.some_bind] at h
          rcases ha2 : dget d "P2-Cluster_active" with _ | a2 <;> rw [ha2] at h
          · simp at h
          · simp only [Option.bind_eq_bind, Option.some_bind] at h
            rcases ha3 : dget d "P3-Cluster_active" with _ | a3 <;> rw [ha3] at h
            · simp at h
            · simp only [Option.bind_eq_bind, Option.some_bind] at h
              have hb0 := dget_active_bounds hd "P0-Cluster" ha0
              have hb1 := dget_active_bounds hd "P1-Cluster" ha1
              have hb2 := dget_active_bounds hd "P2-Cluster" ha2
              have hb3 := dget_active_bounds hd "P3-Cluster" ha3
              have hq0 : (0 : ℚ) ≤ ((a0 : ℚ) + (a1 : ℚ) + (a2 : ℚ) + (a3 : ℚ)) / 4 := by
                have c0 : (0 : ℚ) ≤ (a0 : ℚ) := by exact_mod_cast hb0.1
                have c1 : (0 : ℚ) ≤ (a1 : ℚ) := by exact_mod_cast hb1.1
                have c2 : (0 : ℚ) ≤ (a2 : ℚ) := by exact_mod_cast hb2.1
                have c3 : (0 : ℚ) ≤ (a3 : ℚ) := by exact_mod_cast hb3.1
                linarith
              have hq1 : ((a0 : ℚ) + (a1 : ℚ) + (a2 : ℚ) + (a3 : ℚ)) / 4 ≤ 100 := by
                have c0 : (a0 : ℚ) ≤ 100 := by exact_mod_cast hb0.2
                have c1 : (a1 : ℚ) ≤ 100 := by exact_mod_cast hb1.2
                have c2 : (a2 : ℚ) ≤ 100 := by exact_mod_cast hb2.2
                have c3 : (a3 : ℚ) ≤ 100 := by exact_mod_cast hb3.2
                linarith
              obtain ⟨hv0, hv1⟩ := pyTrunc_bounds hq0 hq1
              cases h
              exact entriesBounded_dinsert_active hd "P-Cluster" hv0 hv1
    · split at h
      · rcases ha0 : dget d "P0-Cluster_active" with _ | a0 <;> rw [ha0] at h
        · simp at h
        · simp only [Option.bind_eq_bind, Option.some_bind] at h
          rcases ha1 : dget d "P1-Cluster_active" with _ | a1 <;> rw [ha1] at h
          · simp at h
          · simp only [Option.bind_eq_bind, Option.some_bind] at h
            have hb0 := dget_active_bounds hd "P0-Cluster" ha0
            have hb1 := dget_active_bounds hd "P1-Cluster" ha1
            have hq0 : (0 : ℚ) ≤ ((a0 : ℚ) + (a1 : ℚ)) / 2 := by
              have c0 : (0 : ℚ) ≤ (a0 : ℚ) := by exact_mod_cast hb0.1
              have c1 : (0 : ℚ) ≤ (a1 : ℚ) := by exact_mod_cast hb1.1
              linarith
            have hq1 : ((a0 : ℚ) + (a1 : ℚ)) / 2 ≤ 100 := by
              have c0 : (a0 : ℚ) ≤ 100 := by exact_mod_cast hb0.2
              have c1 : (a1 : ℚ) ≤ 100 := by exact_mod_cast hb1.2
              linarith
            obtain ⟨hv0, hv1⟩ := pyTrunc_bounds hq0 hq1
            cases h
            exact entriesBounded_dinsert_active hd "P-Cluster" hv0 hv1
      · cases h
        exact hd
  · cases h
    exact hd

/-- The multi-P frequency merge preserves boundedness. -/
theorem mergePFreq_bounded {d d' : List (String × ℤ)} (hd : EntriesBounded d)
    (h : mergePFreq d = some d') : EntriesBounded d' := by
  unfold mergePFreq at h
  split at h
  · split at h
    · rcases hf0 : dget d "P0-Cluster_freq_Mhz" with _ | f0 <;> rw [hf0] at h
      · simp at h
      · simp only [Option.bind_eq_bind, Option.some_bind] at h
        rcases hf1 : dget d "P1-Cluster_freq_Mhz" with _ | f1 <;> rw [hf1] at h
        · simp at h
        · simp only [Option.bind_eq_bind, Option.some_bind] at h
          rcases hf2 : dget d "P2-Cluster_freq_Mhz" with _ | f2 <;> rw [hf2] at h
          · simp at h
          · simp only [Option.bind_eq_bind, Option.some_bind] at h
            rcases hf3 : dget d "P3-Cluster_freq_Mhz" with _ | f3 <;> rw [hf3] at h
            · simp at h
            · simp only [Option.bind_eq_bind, Option.some_bind] at h
              cases h
              exact entriesBounded_dinsert_freq hd "P-Cluster" _
    · split at h
      · rcases hf0 : dget d "P0-Cluster_freq_Mhz" with _ | f0 <;> rw [hf0] at h
        · simp at h
        · simp only [Option.bind_eq_bind, Option.some_bind] at h
          rcases hf1 : dget d "P1-Cluster_freq_Mhz" with _ | f1 <;> rw [hf1] at h
          · simp at h
          · simp only [Option.bind_eq_bind, Option.some_bind] at h
            cases h
            exact entriesBounded_dinsert_freq hd "P-Cluster" _
      · cases h
        exact hd
  · cases h
    exact hd

/-- Field extraction for a successful `parse_cpu_metrics`: the four
wattage fields in terms of the raw record (parsers.py lines 216-230). -/
theorem parse_cpu_fields {r : RawRecord} {proc : Processor} {d : CpuMetrics}
    (hp : r.processor = some proc) (h : parse_cpu_metrics r = some d) :
    d.ane_W = proc.ane_energy / 1000 ∧ d.cpu_W = proc.cpu_energy / 1000 ∧
    d.gpu_W = selectGpuEnergy (r.gpu.bind GpuDoc.gpu_energy) proc.gpu_energy / 1000 ∧
    d.package_W = proc.combined_power / 1000 := by
  unfold parse_cpu_metrics at h
  rw [hp] at h
  simp only [Option.bind_eq_bind, Option.some_bind] at h
  rcases hcf : clustersFold ([], [], []) proc.clusters with _ | ⟨d0, ec, pc⟩ <;> rw [hcf] at h
  · simp at h
  · simp only [Option.bind_eq_bind, Option.some_bind] at h
    rcases hE : mergeEActive d0 with _ | d1 <;> rw [hE] at h
    · simp at h
    · simp only [Option.bind_eq_bind, Option.some_bind] at h
      rcases hEf : mergeEFreq d1 with _ | d2 <;> rw [hEf] at h
      · simp at h
      · simp only [Option.bind_eq_bind, Option.some_bind] at h
        rcases hPa : mergePActive d2 with _ | d3 <;> rw [hPa] at h
        · simp at h
        · simp only [Option.bind_eq_bind, Option.some_bind] at h
          rcases hPf : mergePFreq d3 with _ | d4 <;> rw [hPf] at h
          · simp at h
          · simp only [Option.bind_eq_bind, Option.some_bind] at h
            cases h
            exact ⟨rfl, rfl, rfl, rfl⟩

/-- One step of the cluster loop for a cluster with an empty `cpus` list. -/
theorem clustersFold_nil_cpus (name : String) (fh ir : ℚ) (d : List (String × ℤ))
    (e p : List ℕ) (rest : List Cluster) :
    clustersFold (d, e, p) ({ name := name, freq_hz := fh, idle_ratio := ir, cpus := [] } :: rest)
      = clustersFold
          (dinsert (dinsert d (name ++ "_freq_Mhz") (pyTrunc (fh / 1000000)))
            (name ++ "_active") (pyRound ((1 - ir) * 100)), e, p) rest := rfl

set_option maxHeartbeats 1000000 in
/-- Evaluation of `parse_cpu_metrics` on the two-E/two-P cluster record:
role actives are the truncated mean of the per-cluster actives, role
frequencies the maximum of the per-cluster frequencies. -/
theorem recMultiCluster_eval (r0 r1 s0 s1 f0 f1 g0 g1 : ℚ) :
    (parse_cpu_metrics (recMultiCluster r0 r1 s0 s1 f0 f1 g0 g1)).map
      (fun d => (dget d.entries "E-Cluster_active", dget d.entries "E-Cluster_freq_Mhz",
                 dget d.entries "P-Cluster_active", dget d.entries "P-Cluster_freq_Mhz"))
    = some (some (pyTrunc (((pyRound ((1 - r0) * 100) : ℚ) + (pyRound ((1 - r1) * 100) : ℚ)) / 2)),
            some (max (pyTrunc (f0 / 1000000)) (pyTrunc (f1 / 1000000))),
            some (pyTrunc (((pyRound ((1 - s0) * 100) : ℚ) + (pyRound ((1 - s1) * 100) : ℚ)) / 2)),
            some (max (pyTrunc (g0 / 1000000)) (pyTrunc (g1 / 1000000)))) := by
  simp only [recMultiCluster, parse_cpu_metrics, Option.bind_eq_bind, Option.some_bind,
    clustersFold_nil_cpus, clustersFold]
  simp [dinsert, dmem, dget, mergeEActive, mergeEFreq, mergePActive, mergePFreq]

/-- `parse_cpu_metrics` on the empty-cluster record. -/
theorem parse_recEmptyClusters_eq :
    parse_cpu_metrics recEmptyClusters = some cpuEmptyMetrics := by
  have h1 : parse_cpu_metrics recEmptyClusters
      = some { entries := []
               e_core := []
               p_core := []
               ane_W := (1000 : ℚ) / 1000
               cpu_W := (5000 : ℚ) / 1000
               gpu_W := selectGpuEnergy (some 3000) (some 1000) / 1000
               package_W := (9000 : ℚ) / 1000 } := rfl
  rw [h1]
  unfold cpuEmptyMetrics
  norm_num [selectGpuEnergy]

/-- `parse_cpu_metrics` on the end-to-end scenario record. -/
theorem parse_recScenario_eq :
    parse_cpu_metrics recScenario = some cpuScenarioMetrics := by
  have h1 : parse_cpu_metrics recScenario
      = some { entries := [("E-Cluster_freq_Mhz", pyTrunc ((2064000000 : ℚ) / 1000000)),
                           ("E-Cluster_active", pyRound ((1 - 8/10) * 100))]
               e_core := []
               p_core := []
               ane_W := (1000 : ℚ) / 1000
               cpu_W := (5000 : ℚ) / 1000
               gpu_W := selectGpuEnergy none (some 3000) / 1000
               package_W := (9000 : ℚ) / 1000 } := rfl
  rw [h1]
  unfold cpuScenarioMetrics
  norm_num [selectGpuEnergy, pyTrunc, pyRound]

end Asitop

namespace Asitop

/-- Claim C3 (amended): every canonical GPU utilization value lies in
[0,100] for all inputs (the source clamps it), and every CPU
active-percent entry lies in [0,100] provided all idle ratios of the raw
record lie in [0,1]; CPU active-percents are not clamped by the source,
so the bound does not hold for idle ratios outside [0,1]. -/
theorem active_percent_range :
    (∀ r d, parse_gpu_metrics r = some d → 0 ≤ d.active ∧ d.active ≤ 100) ∧
    (∀ r proc d, r.processor = some proc → IdleRatiosOK proc →
      parse_cpu_metrics r = some d → EntriesBounded d.entries) := by
  constructor
  · intro r d h
    unfold parse_gpu_metrics at h
    rcases hg : r.gpu with _ | g <;> rw [hg] at h
    · simp at h
    · simp only [Option.bind_eq_bind, Option.some_bind] at h
      cases h
      exact ⟨le_max_left 0 _, max_le (by norm_num) (min_le_right _ _)⟩
  · intro r proc d hp hidle h
    unfold parse_cpu_metrics at h
    rw [hp] at h
    simp only [Option.bind_eq_bind, Option.some_bind] at h
    rcases hcf : clustersFold ([], [], []) proc.clusters with _ | ⟨d0, ec, pc⟩ <;> rw [hcf] at h
    · simp at h
    · simp only [Option.bind_eq_bind, Option.some_bind] at h
      have hb0 : EntriesBounded d0 := by
        have hball := clustersFold_bounded proc.clusters [] [] [] (d0, ec, pc)
          hidle entriesBounded_nil hcf
        exact hball
      rcases hE : mergeEActive d0 with _ | d1 <;> rw [hE] at h
      · simp at h
      · simp only [Option.bind_eq_bind, Option.some_bind] at h
        rcases hEf : mergeEFreq d1 with _ | d2 <;> rw [hEf] at h
        · simp at h
        · simp only [Option.bind_eq_bind, Option.some_bind] at h
          rcases hPa : mergePActive d2 with _ | d3 <;> rw [hPa] at h
          · simp at h
          · simp only [Option.bind_eq_bind, Option.some_bind] at h
            rcases hPf : mergePFreq d3 with _ | d4 <;> rw [hPf] at h
            · simp at h
            · simp only [Option.bind_eq_bind, Option.some_bind] at h
              cases h
              exact mergePFreq_bounded
                (mergePActive_bounded (mergeEFreq_bounded (mergeEActive_bounded hb0 hE) hEf) hPa)
                hPf

/-- Claim C3 counterexample: a raw record whose single E-cluster has
idle ratio -0.5 yields a canonical active-percent of 150, outside
[0,100]; the source does not clamp CPU active-percents. -/
theorem cpu_active_percent_unclamped_cex :
    (parse_cpu_metrics recUnclamped).map (fun d => dget d.entries "E-Cluster_active")
      = some (some 150) ∧ ¬ ((150 : ℤ) ≤ 100) := by
  have h1 : (parse_cpu_metrics recUnclamped).map (fun d => dget d.entries "E-Cluster_active")
      = some (some (pyRound ((1 - -(1/2)) * 100))) := rfl
  have h2 : pyRound ((1 - -(1/2) : ℚ) * 100) = 150 := by norm_num [pyRound]
  rw [h1, h2]
  norm_num

/-- Witness for `active_percent_range` at concrete records. -/
theorem active_percent_range_witness :
    (parse_gpu_metrics recGpuNoIdle = some { freq_MHz := 444, active := 100 } ∧
      0 ≤ (GpuMetrics.mk 444 100).active ∧ (GpuMetrics.mk 444 100).active ≤ 100) ∧
    (parse_cpu_metrics recEmptyClusters = some cpuEmptyMetrics ∧
      EntriesBounded cpuEmptyMetrics.entries) := by
  have hg : parse_gpu_metrics recGpuNoIdle = some { freq_MHz := 444, active := 100 } := by
    have h1 : parse_gpu_metrics recGpuNoIdle
        = some { freq_MHz := pyTrunc ((444000000 : ℚ) / 1000000),
                 active := max 0 (min (pyTrunc ((1 - (0 : ℚ)) * 100)) 100) } := rfl
    have e1 : pyTrunc ((444000000 : ℚ) / 1000000) = 444 := by norm_num [pyTrunc]
    have e2 : max 0 (min (pyTrunc ((1 - (0 : ℚ)) * 100)) 100) = 100 := by norm_num [pyTrunc]
    rw [h1, e1, e2]
  have hc : parse_cpu_metrics recEmptyClusters = some cpuEmptyMetrics :=
    parse_recEmptyClusters_eq
  refine ⟨⟨hg, active_percent_range.1 recGpuNoIdle _ hg⟩, hc, ?_⟩
  exact active_percent_range.2 recEmptyClusters
    { clusters := [], ane_energy := 1000, cpu_energy := 5000,
      gpu_energy := some 1000, combined_power := 9000 }
    cpuEmptyMetrics rfl (fun cl hcl => absurd hcl (List.not_mem_nil cl)) hc

/-- Claim C10: a raw record whose GPU descriptor lacks `idle_ratio`
defaults the idle ratio to 0, so GPU utilization is reported as 100
(fully busy), not 0. -/
theorem gpu_missing_idle_reports_full_load (r : RawRecord) (g : GpuDoc)
    (hg : r.gpu = some g) (hi : g.idle_ratio = none) :
    (parse_gpu_metrics r).map GpuMetrics.active = some 100 := by
  unfold parse_gpu_metrics
  rw [hg]
  simp only [Option.bind_eq_bind, Option.some_bind, hi]
  norm_num [pyTrunc]

/-- Witness for `gpu_missing_idle_reports_full_load`. -/
theorem gpu_missing_idle_reports_full_load_witness :
    recGpuNoIdle.gpu = some
      { freq_hz := some 444000000, idle_ratio := none, dvfm_states := none, gpu_energy := none } ∧
    (parse_gpu_metrics recGpuNoIdle).map GpuMetrics.active = some 100 :=
  ⟨rfl, gpu_missing_idle_reports_full_load recGpuNoIdle _ rfl rfl⟩

/-- Claim C8 (amended): when the GPU frequency is undeterminable (zero
direct reading and no usable residency table) the parser reports
frequency 0; nothing is carried forward, `parse_gpu_metrics` takes no
previous-snapshot input. -/
theorem gpu_freq_zero_when_undeterminable (r : RawRecord) (g : GpuDoc)
    (hg : r.gpu = some g) (hf : g.freq_hz.getD 0 = 0)
    (hd : g.dvfm_states = none ∨
      ∃ sts, g.dvfm_states = some sts ∧
        ¬ (0 < (sts.map (fun s => s.used_ratio.getD 0)).sum)) :
    (parse_gpu_metrics r).map GpuMetrics.freq_MHz = some 0 := by
  unfold parse_gpu_metrics
  rw [hg]
  simp only [Option.bind_eq_bind, Option.some_bind, Option.map_some', hf]
  rcases hd with hnone | ⟨sts, hsts, htot⟩
  · simp only [hnone]
    norm_num [pyTrunc]
  · simp only [hsts]
    norm_num [pyTrunc, htot]

/-- Claim C8 counterexample: after a snapshot with GPU frequency 1296
(`recScenario`), a record with undeterminable GPU frequency yields a
snapshot reporting frequency 0, not the previous 1296. -/
theorem gpu_freq_not_carried_forward_cex :
    (parse_gpu_metrics recScenario).map GpuMetrics.freq_MHz = some 1296 ∧
    (parse_gpu_metrics recGpuZeroFreq).map GpuMetrics.freq_MHz = some 0 ∧
    (0 : ℤ) ≠ 1296 := by
  refine ⟨?_, ?_, by norm_num⟩
  · have h1 : (parse_gpu_metrics recScenario).map GpuMetrics.freq_MHz
        = some (pyTrunc ((1296000000 : ℚ) / 1000000)) := rfl
    have h2 : pyTrunc ((1296000000 : ℚ) / 1000000) = 1296 := by norm_num [pyTrunc]
    rw [h1, h2]
  · have h1 : (parse_gpu_metrics recGpuZeroFreq).map GpuMetrics.freq_MHz
        = some (pyTrunc (0 : ℚ)) := rfl
    have h2 : pyTrunc (0 : ℚ) = 0 := by norm_num [pyTrunc]
    rw [h1, h2]

/-- Witness for `gpu_freq_zero_when_undeterminable`. -/
theorem gpu_freq_zero_when_undeterminable_witness :
    recGpuZeroFreq.gpu = some
      { freq_hz := some 0, idle_ratio := some (1/2), dvfm_states := none, gpu_energy := none } ∧
    (GpuDoc.mk (some 0) (some (1/2)) none none).freq_hz.getD 0 = 0 ∧
    (parse_gpu_metrics recGpuZeroFreq).map GpuMetrics.freq_MHz = some 0 :=
  ⟨rfl, rfl, gpu_freq_zero_when_undeterminable recGpuZeroFreq _ rfl rfl (Or.inl rfl)⟩

end Asitop

namespace Asitop

/-- Claim C7: the GPU rail energy used for power derivation is the GPU
sampler's reading when present and nonzero, otherwise the processor
sampler's reading, otherwise 0 (parsers.py lines 219-229). -/
theorem gpu_energy_preference (r : RawRecord) (proc : Processor) (d : CpuMetrics)
    (hp : r.processor = some proc) (h : parse_cpu_metrics r = some d) :
    (∀ e : ℚ, r.gpu.bind GpuDoc.gpu_energy = some e → e ≠ 0 → d.gpu_W = e / 1000) ∧
    ((r.gpu.bind GpuDoc.gpu_energy = none ∨ r.gpu.bind GpuDoc.gpu_energy = some 0) →
      d.gpu_W = proc.gpu_energy.getD 0 / 1000) := by
  obtain ⟨-, -, hgw, -⟩ := parse_cpu_fields hp h
  constructor
  · intro e he hne
    rw [hgw, he]
    simp only [selectGpuEnergy]
    rw [if_pos hne]
  · intro hcase
    rcases hcase with hnone | hzero
    · rw [hgw, hnone]
      rfl
    · rw [hgw, hzero]
      simp only [selectGpuEnergy]
      rw [if_neg (by norm_num)]

/-- Witness for `gpu_energy_preference`: GPU-side energy 3000 wins over
the processor-side 1000. -/
theorem gpu_energy_preference_witness :
    recEmptyClusters.processor = some
      { clusters := [], ane_energy := 1000, cpu_energy := 5000,
        gpu_energy := some 1000, combined_power := 9000 } ∧
    parse_cpu_metrics recEmptyClusters = some cpuEmptyMetrics ∧
    recEmptyClusters.gpu.bind GpuDoc.gpu_energy = some 3000 ∧ (3000 : ℚ) ≠ 0 ∧
    cpuEmptyMetrics.gpu_W = 3000 / 1000 := by
  refine ⟨rfl, parse_recEmptyClusters_eq, rfl, by norm_num, ?_⟩
  exact (gpu_energy_preference recEmptyClusters _ cpuEmptyMetrics rfl
    parse_recEmptyClusters_eq).1 3000 rfl (by norm_num)

/-- Claim C4: displayed rail wattage is the energy field divided by the
sampling interval divided by 1000 (asitop.py lines 402-445), and the
spec's end-to-end scenario record at a 1-second interval yields
efficiency active 20 at 2064 MHz, powers 1.0/5.0/3.0/9.0 W, GPU 75 at
1296 MHz, and no throttling. -/
theorem power_normalization_end_to_end :
    (∀ (r : RawRecord) (proc : Processor) (d : CpuMetrics) (i : ℚ),
      r.processor = some proc → parse_cpu_metrics r = some d →
      d.cpu_W / i = proc.cpu_energy / i / 1000 ∧
      d.ane_W / i = proc.ane_energy / i / 1000 ∧
      d.package_W / i = proc.combined_power / i / 1000) ∧
    (parse_cpu_metrics recScenario).map
      (fun d => (dget d.entries "E-Cluster_active", dget d.entries "E-Cluster_freq_Mhz",
                 d.ane_W / 1, d.cpu_W / 1, d.gpu_W / 1, d.package_W / 1))
      = some (some 20, some 2064, 1, 5, 3, 9) ∧
    (parse_gpu_metrics recScenario).map (fun g => (g.active, g.freq_MHz)) = some (75, 1296) ∧
    thermal_throttle "Nominal" = "no" := by
  refine ⟨?_, ?_, ?_, rfl⟩
  · intro r proc d i hp h
    obtain ⟨haw, hcw, -, hpw⟩ := parse_cpu_fields hp h
    refine ⟨?_, ?_, ?_⟩
    · rw [hcw]; ring
    · rw [haw]; ring
    · rw [hpw]; ring
  · have h2 : (some cpuScenarioMetrics).map
        (fun d => (dget d.entries "E-Cluster_active", dget d.entries "E-Cluster_freq_Mhz",
                   d.ane_W / 1, d.cpu_W / 1, d.gpu_W / 1, d.package_W / 1))
        = some (some 20, some 2064, (1 : ℚ)/1, (5 : ℚ)/1, (3 : ℚ)/1, (9 : ℚ)/1) := rfl
    rw [parse_recScenario_eq, h2]
    norm_num
  · have h1 : (parse_gpu_metrics recScenario).map (fun g => (g.active, g.freq_MHz))
        = some (max 0 (min (pyTrunc ((1 - 1/4) * 100)) 100),
                pyTrunc ((1296000000 : ℚ) / 1000000)) := rfl
    have e1 : pyTrunc ((1 - 1/4 : ℚ) * 100) = 75 := by norm_num [pyTrunc]
    have e2 : pyTrunc ((1296000000 : ℚ) / 1000000) = 1296 := by norm_num [pyTrunc]
    rw [h1, e1, e2]
    norm_num

/-- Witness for `power_normalization_end_to_end` at interval 2. -/
theorem power_normalization_end_to_end_witness :
    recScenario.processor = some
      { clusters := [{ name := "E-Cluster", freq_hz := 2064000000, idle_ratio := 8/10, cpus := [] }],
        ane_energy := 1000, cpu_energy := 5000, gpu_energy := some 3000, combined_power := 9000 } ∧
    parse_cpu_metrics recScenario = some cpuScenarioMetrics ∧
    (cpuScenarioMetrics.cpu_W / 2 = 5000 / 2 / 1000 ∧
      cpuScenarioMetrics.ane_W / 2 = 1000 / 2 / 1000 ∧
      cpuScenarioMetrics.package_W / 2 = 9000 / 2 / 1000) :=
  ⟨rfl, parse_recScenario_eq,
    power_normalization_end_to_end.1 recScenario _ cpuScenarioMetrics 2 rfl parse_recScenario_eq⟩

/-- Claim C2 (amended): with two clusters per role, the canonical role
active-percent is the Python `int()` truncation (not `round`) of the mean
of the per-cluster active-percents, and the canonical role frequency is
the maximum of the per-cluster frequencies (parsers.py lines 173-214). -/
theorem dual_cluster_merge_truncated_mean (r0 r1 s0 s1 f0 f1 g0 g1 : ℚ) :
    (parse_cpu_metrics (recMultiCluster r0 r1 s0 s1 f0 f1 g0 g1)).map
      (fun d => (dget d.entries "E-Cluster_active", dget d.entries "E-Cluster_freq_Mhz",
                 dget d.entries "P-Cluster_active", dget d.entries "P-Cluster_freq_Mhz"))
    = some (some (pyTrunc (((pyRound ((1 - r0) * 100) : ℚ) + (pyRound ((1 - r1) * 100) : ℚ)) / 2)),
            some (max (pyTrunc (f0 / 1000000)) (pyTrunc (f1 / 1000000))),
            some (pyTrunc (((pyRound ((1 - s0) * 100) : ℚ) + (pyRound ((1 - s1) * 100) : ℚ)) / 2)),
            some (max (pyTrunc (g0 / 1000000)) (pyTrunc (g1 / 1000000)))) :=
  recMultiCluster_eval r0 r1 s0 s1 f0 f1 g0 g1

/-- Claim C2 counterexample: with idle ratios 0.79 and 0.78 the
per-cluster actives are 21 and 22; the source computes `int(21.5) = 21`
while the claimed rounded mean is `round(21.5) = 22`. -/
theorem dual_cluster_mean_not_rounded_cex :
    (parse_cpu_metrics (recMultiCluster (79/100) (78/100) 0 0 0 0 0 0)).map
      (fun d => (dget d.entries "E-Cluster_active", dget d.entries "E-Cluster_freq_Mhz",
                 dget d.entries "P-Cluster_active", dget d.entries "P-Cluster_freq_Mhz"))
      = some (some 21, some 0, some 100, some 0) ∧
    pyRound (((1 - 79/100) * 100 + (1 - 78/100) * 100) / 2) = 22 ∧ (21 : ℤ) ≠ 22 := by
  refine ⟨?_, by norm_num [pyRound], by norm_num⟩
  have h1 := recMultiCluster_eval (79/100) (78/100) 0 0 0 0 0 0
  rw [h1]
  norm_num [pyRound, pyTrunc]

end Asitop

namespace Asitop

/-- A decoded document with no `timestamp` field fails `parseRecord`. -/
theorem parseRecord_none_of_no_timestamp {r : RawRecord} (h : r.timestamp = none) :
    parseRecord r = none := by
  unfold parseRecord
  rcases hA : parse_thermal_pressure r with _ | tp
  · rfl
  · simp only [Option.bind_eq_bind, Option.some_bind]
    rcases hB : parse_cpu_metrics r with _ | cpu
    · rfl
    · simp only [Option.bind_eq_bind, Option.some_bind]
      rcases hC : parse_gpu_metrics r with _ | gpu
      · rfl
      · simp only [Option.bind_eq_bind, Option.some_bind]
        rw [h]
        rfl

/-- The index-descending retry loop is the first success over the
reversed fragment list. -/
theorem tryFrom_eq_findSome (decode : List ℕ → Option RawRecord) (parts : List (List ℕ)) :
    ∀ n, n ≤ parts.length →
      tryFrom decode parts n = ((parts.take n).reverse).findSome? (fragmentParse decode) := by
  intro n
  induction n with
  | zero => intro _; rfl
  | succ k ih =>
      intro hle
      have hk : k < parts.length := Nat.lt_of_succ_le hle
      obtain ⟨frag, hfrag⟩ : ∃ f, parts[k]? = some f :=
        ⟨parts[k], List.getElem?_eq_getElem hk⟩
      have hrev : ((parts.take (k + 1)).reverse) = frag :: (parts.take k).reverse := by
        rw [List.take_succ, hfrag]
        simp
      rw [tryFrom, hfrag, hrev, List.findSome?_cons]
      dsimp only
      rcases hfp : fragmentParse decode frag with _ | s
      · dsimp only
        exact ih (Nat.le_of_lt hk)
      · rfl

/-- Claim C1: the reader splits the trailing window on null bytes and
tries fragments from the most recent to the least recent, returning the
first fragment that decodes and has all required fields; a decodable
fragment missing a required field (no timestamp) is skipped; a missing
file or a window with no decodable fragment yields NotReady (`none`). -/
theorem reader_tries_most_recent_first (decode : List ℕ → Option RawRecord) :
    (∀ file : List ℕ, parse_powermetrics (some file) decode
        = (((window file).splitOn 0).reverse).findSome? (fragmentParse decode)) ∧
    parse_powermetrics none decode = none ∧
    (∀ parts : List (List ℕ), (∀ frag ∈ parts, fragmentParse decode frag = none) →
        parts.reverse.findSome? (fragmentParse decode) = none) ∧
    (∀ (frag : List ℕ) (rest : List (List ℕ)) (r : RawRecord),
        decode frag = some r → r.timestamp = none →
        List.findSome? (fragmentParse decode) (frag :: rest)
          = List.findSome? (fragmentParse decode) rest) := by
  refine ⟨?_, rfl, ?_, ?_⟩
  · intro file
    unfold parse_powermetrics
    have h := tryFrom_eq_findSome decode ((window file).splitOn 0)
      ((window file).splitOn 0).length le_rfl
    rw [List.take_length] at h
    exact h
  · intro parts hall
    rw [List.findSome?_eq_none_iff]
    intro x hx
    exact hall x (List.mem_reverse.mp hx)
  · intro frag rest r hdec hts
    rw [List.findSome?_cons]
    have hfp : fragmentParse decode frag = none := by
      unfold fragmentParse
      split
      · rw [hdec]
        exact parseRecord_none_of_no_timestamp hts
      · rfl
    rw [hfp]

/-- Witness for `reader_tries_most_recent_first`: a fragment decoding to
a document without a timestamp is skipped. -/
theorem reader_tries_most_recent_first_witness :
    decodeNoTimestamp [1] = some recNoTimestamp ∧ recNoTimestamp.timestamp = none ∧
    List.findSome? (fragmentParse decodeNoTimestamp) ([1] :: ([] : List (List ℕ)))
      = List.findSome? (fragmentParse decodeNoTimestamp) ([] : List (List ℕ)) :=
  ⟨rfl, rfl,
    (reader_tries_most_recent_first decodeNoTimestamp).2.2.2 [1] [] recNoTimestamp rfl rfl⟩

/-- The trailing window is idempotent. -/
theorem window_window (file : List ℕ) : window (window file) = window file := by
  unfold window
  rw [List.length_drop]
  have h1 : file.length - (file.length - min 50000 file.length) = min 50000 file.length := by
    omega
  rw [h1]
  have h2 : min 50000 (min 50000 file.length) = min 50000 file.length := by omega
  rw [h2]
  simp

/-- Appending 50000 trailing bytes after any prefix leaves exactly those
bytes in the window. -/
theorem window_append_50000 (pre f : List ℕ) (h : f.length = 50000) :
    window (pre ++ f) = f := by
  unfold window
  rw [List.length_append, h]
  have h1 : min 50000 (pre.length + 50000) = 50000 := by omega
  rw [h1]
  have h2 : pre.length + 50000 - 50000 = pre.length := by omega
  rw [h2]
  exact List.drop_left pre f

/-- Claim C9: the reader decodes only from the file's trailing window of
min(50000, fileSize) bytes; bytes before that window never influence the
result. -/
theorem reader_trailing_window_only :
    (∀ (decode : List ℕ → Option RawRecord) (file : List ℕ),
        parse_powermetrics (some file) decode
          = parse_powermetrics (some (window file)) decode) ∧
    (∀ file : List ℕ, (window file).length = min 50000 file.length) ∧
    (∀ (decode : List ℕ → Option RawRecord) (pre f : List ℕ), f.length = 50000 →
        parse_powermetrics (some (pre ++ f)) decode
          = parse_powermetrics (some f) decode) := by
  refine ⟨?_, ?_, ?_⟩
  · intro decode file
    unfold parse_powermetrics
    dsimp only
    rw [window_window]
  · intro file
    unfold window
    rw [List.length_drop]
    omega
  · intro decode pre f h
    unfold parse_powermetrics
    dsimp only
    rw [window_append_50000 pre f h]
    have hf : window f = f := by
      unfold window
      rw [h]
      simp
    rw [hf]

/-- Witness for `reader_trailing_window_only`: a one-byte prefix before a
50000-byte tail does not change the result. -/
theorem reader_trailing_window_only_witness :
    (List.replicate 50000 1).length = 50000 ∧
    parse_powermetrics (some ([0] ++ List.replicate 50000 1)) decodeNone
      = parse_powermetrics (some (List.replicate 50000 1)) decodeNone :=
  ⟨List.length_replicate 50000 1,
    reader_trailing_window_only.2.2 decodeNone [0] (List.replicate 50000 1)
      (List.length_replicate 50000 1)⟩

end Asitop

namespace Asitop

/-- The accepted timestamps are strictly increasing, each above the
initial last-accepted timestamp. -/
theorem accepted_chain (last : ℤ) (obs : List (ℤ × ℚ)) :
    List.Chain' (· < ·) (last :: (accepted last obs).map Prod.fst) := by
  induction obs generalizing last with
  | nil => exact List.chain'_singleton last
  | cons o rest ih =>
      rw [accepted]
      by_cases hlt : last < o.1
      · rw [if_pos hlt]
        rw [List.map_cons, List.chain'_cons]
        exact ⟨hlt, ih o.1⟩
      · rw [if_neg hlt]
        exact ih last

/-- Running the loop is the same as folding the unconditional accept step
over exactly the accepted observations. -/
theorem runLoop_eq_accepted (maxlen : ℕ) :
    ∀ (obs : List (ℤ × ℚ)) (s : LoopState),
      runLoop maxlen s obs = (accepted s.last_timestamp obs).foldl (acceptStep maxlen) s := by
  intro obs
  induction obs with
  | nil => intro s; rfl
  | cons o rest ih =>
      intro s
      show runLoop maxlen (observeStep maxlen s o) rest = _
      rw [accepted]
      by_cases hlt : s.last_timestamp < o.1
      · rw [if_pos hlt]
        have ho : observeStep maxlen s o = acceptStep maxlen s o := if_pos hlt
        rw [ho, List.foldl_cons]
        have hl : (acceptStep maxlen s o).last_timestamp = o.1 := rfl
        rw [ih (acceptStep maxlen s o), hl]
      · rw [if_neg hlt]
        have ho : observeStep maxlen s o = s := if_neg hlt
        rw [ho]
        exact ih s

/-- Claim C5: the loop accepts a snapshot only when its timestamp is
strictly greater than the last accepted one, so delivered timestamps are
strictly increasing; feeding timestamps [1000, 1000, 999, 1001] with
powers [5, 6, 7, 8] yields exactly the accepted observations
(1000, 5) and (1001, 8), a 2-capacity buffer averaging 6.5, and peak 8. -/
theorem loop_accepts_strictly_increasing :
    (∀ (last : ℤ) (obs : List (ℤ × ℚ)),
        List.Chain' (· < ·) (last :: (accepted last obs).map Prod.fst)) ∧
    (∀ (maxlen : ℕ) (s : LoopState) (obs : List (ℤ × ℚ)),
        runLoop maxlen s obs = (accepted s.last_timestamp obs).foldl (acceptStep maxlen) s) ∧
    accepted 0 [(1000, 5), (1000, 6), (999, 7), (1001, 8)] = [(1000, 5), (1001, 8)] ∧
    (runLoop 2 ⟨0, [], 0⟩ [(1000, 5), (1000, 6), (999, 7), (1001, 8)]).buf = [5, 8] ∧
    get_avg (runLoop 2 ⟨0, [], 0⟩ [(1000, 5), (1000, 6), (999, 7), (1001, 8)]).buf
      = some (13/2) ∧
    (runLoop 2 ⟨0, [], 0⟩ [(1000, 5), (1000, 6), (999, 7), (1001, 8)]).peak = 8 := by
  have hrun : runLoop 2 ⟨0, [], 0⟩ [(1000, 5), (1000, 6), (999, 7), (1001, 8)]
      = ⟨1001, [5, 8], 8⟩ := by
    norm_num [runLoop, observeStep, acceptStep, dequeAppend, max_def]
  refine ⟨accepted_chain, fun maxlen s obs => runLoop_eq_accepted maxlen obs s, ?_, ?_, ?_, ?_⟩
  · norm_num [accepted]
  · rw [hrun]
  · rw [hrun]
    show get_avg [5, 8] = some (13/2)
    unfold get_avg
    rw [if_neg (by simp)]
    norm_num
  · rw [hrun]

/-- Appending to a bounded deque gives length `min (n+1) maxlen`. -/
theorem dequeAppend_length (m : ℕ) (buf : List ℚ) (x : ℚ) :
    (dequeAppend m buf x).length = min (buf.length + 1) m := by
  unfold dequeAppend
  rw [List.length_drop, List.length_append]
  simp
  omega

/-- The loop never grows a rail buffer beyond its capacity. -/
theorem runLoop_buf_le (m : ℕ) :
    ∀ (obs : List (ℤ × ℚ)) (s : LoopState),
      s.buf.length ≤ m → (runLoop m s obs).buf.length ≤ m := by
  intro obs
  induction obs with
  | nil => intro s h; exact h
  | cons o rest ih =>
      intro s h
      show (runLoop m (observeStep m s o) rest).buf.length ≤ m
      apply ih
      unfold observeStep
      split
      · show (dequeAppend m s.buf o.2).length ≤ m
        rw [dequeAppend_length]
        omega
      · exact h

/-- Claim C6 (amended): a rail buffer never exceeds the configured
capacity `int(avg / interval)` (no minimum is applied), and the moving
average is the arithmetic mean of the buffer contents whenever the
buffer is nonempty; with capacity 0 the buffer stays empty and the
average is undefined. -/
theorem rolling_buffer_bounds :
    (∀ (m : ℕ) (buf : List ℚ) (x : ℚ),
        (dequeAppend m buf x).length = min (buf.length + 1) m) ∧
    (∀ (m : ℕ) (s : LoopState) (obs : List (ℤ × ℚ)),
        s.buf.length ≤ m → (runLoop m s obs).buf.length ≤ m) ∧
    (∀ l : List ℚ, l ≠ [] → get_avg l = some (l.sum / (l.length : ℚ))) :=
  ⟨dequeAppend_length, fun m s obs h => runLoop_buf_le m obs s h,
    fun l hl => by unfold get_avg; rw [if_neg hl]⟩

/-- Claim C6 counterexample: with averaging window 1 s and interval 2 s
the capacity is `int(1/2) = 0`, not the claimed minimum 1; an append
leaves the buffer empty and the moving average is undefined
(`ZeroDivisionError` in the source). -/
theorem rolling_capacity_no_minimum_cex :
    bufferCapacity 1 2 = 0 ∧ ¬ (1 ≤ bufferCapacity 1 2) ∧
    dequeAppend (bufferCapacity 1 2) [] 5 = [] ∧
    get_avg (dequeAppend (bufferCapacity 1 2) [] 5) = none :=
  ⟨rfl, by decide, rfl, rfl⟩

/-- Witness for `rolling_buffer_bounds`. -/
theorem rolling_buffer_bounds_witness :
    ([] : List ℚ).length ≤ 2 ∧
    (runLoop 2 ⟨0, [], 0⟩ [(1, 5)]).buf.length ≤ 2 ∧
    ([5] : List ℚ) ≠ [] ∧
    get_avg [5] = some (([5] : List ℚ).sum / (([5] : List ℚ).length : ℚ)) := by
  refine ⟨by simp, rolling_buffer_bounds.2.1 2 ⟨0, [], 0⟩ [(1, 5)] (by simp), by simp,
    rolling_buffer_bounds.2.2 [5] (by simp)⟩

end Asitop
